import Mathlib

/-!
Shallow embedding of `src/app.py` (the single-endpoint tactical gateway).

The handler `unified_handshake` chains four stages: rotating-token
authentication, the distress kill-switch (vault purge), the external ethics
classifier, and signature synthesis.  External library calls
(`hmac`/`hashlib` digests, the HTTP classifier call, wall-clock time) are
modelled as explicit parameters of an `Env` record; the filesystem vault is
modelled as an explicit `VaultState` value threaded through the handler.
-/

/-- `HSM_MANTRA` constant from app.py (the master hardware key). -/
def HSM_MANTRA : String := "YATO_DHARMA_TATO_JAYA_2026"

/-- `NODE_ID` constant from app.py. -/
def NODE_ID : String := "ANS-OMEGA-CORE-01"

/-- Python `s.upper()`: uppercase every code point of the string. -/
def pyUpper (s : String) : String := String.mk (s.data.map Char.toUpper)

/-- Python slice `s[:n]`: the first `n` code points of the string. -/
def pySlice (n : Nat) (s : String) : String := String.mk (s.data.take n)

/-- Python `s.isascii()`: every code point of the string is below 128. -/
def isAsciiStr (s : String) : Bool := s.data.all (fun c => c.toNat < 128)

/-- `hmac.compare_digest` on two `str` arguments (app.py:81): raises
`TypeError` when either string contains non-ASCII characters, and otherwise
decides equality (in constant time, a property this value-level model does
not capture). -/
def compare_digest (a b : String) : Except String Bool :=
  if isAsciiStr a && isAsciiStr b then Except.ok (a == b)
  else Except.error
    "TypeError: comparing strings with non-ASCII characters is not supported"

/-- `needle` is an initial segment of `hay` (helper for Python `in`). -/
def isPrefixList : List Char → List Char → Bool
  | [], _ => true
  | _ :: _, [] => false
  | a :: as, b :: bs => a == b && isPrefixList as bs

/-- Python substring test `needle in hay` on code-point lists. -/
def hasSubList (needle : List Char) : List Char → Bool
  | [] => isPrefixList needle []
  | b :: t => isPrefixList needle (b :: t) || hasSubList needle t

/-- The filesystem subtree at `VAULT_PATH`: whether the directory exists and
the names of the entries currently stored under it. -/
structure VaultState where
  present : Bool
  contents : List String
  deriving DecidableEq

/-- Module-level bootstrap of app.py: `if not os.path.exists(VAULT_PATH):
os.makedirs(VAULT_PATH)`. -/
def ensureVault (v : VaultState) : VaultState :=
  if v.present then v else { present := true, contents := [] }

/-- `SentinelSecurity.initiate_self_purge`: if the vault directory exists,
`shutil.rmtree` then `os.makedirs` (recreate empty); always returns the
confirmation string. -/
def initiate_self_purge (v : VaultState) : VaultState × String :=
  if v.present then ({ present := true, contents := [] }, "HARDWARE_SANITIZED")
  else (v, "HARDWARE_SANITIZED")

/-- `SentinelSecurity.get_rotating_token` generalised over the secret, as in
the spec's `expected_code(S, t)`: `mac` stands for the external
`hmac.new(secret, msg, hashlib.sha3_512).hexdigest()` primitive, `now` for
`time.time()` in whole seconds.  The window is `int(time.time() / 30)`. -/
def rotating_token_with_secret (mac : String → String → String)
    (secret : String) (now : Nat) : String :=
  mac secret (toString (now / 30))

/-- `SentinelSecurity.get_rotating_token` exactly as in app.py: the secret is
the fixed `HSM_MANTRA`. -/
def get_rotating_token (mac : String → String → String) (now : Nat) : String :=
  rotating_token_with_secret mac HSM_MANTRA now

/-- Outcome of the `requests.post` call to the Ollama endpoint inside
`KrishnaInference.analyze_intent`: either any raised exception (connection
refused, timeout, unparsable JSON body, unreachable endpoint), or a parsed
JSON body whose optional `response` field is returned. -/
inductive ClassifierOutcome where
  | failure : ClassifierOutcome
  | success : Option String → ClassifierOutcome
  deriving DecidableEq

/-- `KrishnaInference.analyze_intent`: on any exception the `except` branch
returns the local-verified fallback; otherwise
`res.json().get('response', "DHARMIC_CLEARANCE")`. -/
def analyze_intent (outcome : ClassifierOutcome) : String :=
  match outcome with
  | .failure => "DHARMIC_CLEARANCE_LOCAL_VERIFIED"
  | .success none => "DHARMIC_CLEARANCE"
  | .success (some r) => r

/-- The inbound JSON body: `data.get(...)` yields `none` for an absent (or
null) field. -/
structure HandshakeRequest where
  auth_token : Option String
  eeg_state : Option String
  mental_intent : Option String
  deriving DecidableEq

/-- The ambient effects the handler consumes: the two external hash
primitives, the current time in seconds, and the outcome of the (single)
classifier HTTP call.  `hmac_ascii` records the contract of the real
`hmac.new(..., hashlib.sha3_512).hexdigest()` primitive being modelled: a
hexdigest is a lowercase-hex — in particular ASCII — string, which is what
lets `hmac.compare_digest` at app.py:81 ever get past its ASCII check. -/
structure Env where
  hmacSha3_512 : String → String → String
  sha3_256_hexdigest : String → String
  nowSeconds : Nat
  classifier : ClassifierOutcome
  hmac_ascii : ∀ key msg, isAsciiStr (hmacSha3_512 key msg) = true

/-- The astra-signature computation of stage 5 (spec: `synthesize`):
`hashlib.sha3_256(intent.encode()).hexdigest()[:24].upper()`, with the
external `sha3_256` hexdigest primitive passed in. -/
def synthesize (sha3_256_hexdigest : String → String) (intent : String) : String :=
  pyUpper (pySlice 24 (sha3_256_hexdigest intent))

/-- The response returned by `unified_handshake`, projected to the fields the
specification talks about (status tag, classifier log text, astra
signature); `crash` records an uncaught Python exception (no JSON response,
the framework turns it into a 500 error page). -/
inductive HandlerResult where
  | intercepted : HandlerResult
  | terminated : HandlerResult
  | forbidden (log : String) : HandlerResult
  | synchronized (astra_signature : String) : HandlerResult
  | crash (msg : String) : HandlerResult
  deriving DecidableEq

/-- HTTP status code of each handler result (`none` for an uncaught
exception, which produces no handler response). -/
def HandlerResult.statusCode : HandlerResult → Option Nat
  | .intercepted => some 403
  | .terminated => some 410
  | .forbidden _ => some 401
  | .synchronized _ => some 200
  | .crash _ => none

/-- The `status` field of the JSON body of each handler result. -/
def HandlerResult.statusTag : HandlerResult → Option String
  | .intercepted => some "INTERCEPTED"
  | .terminated => some "TERMINATED"
  | .forbidden _ => some "FORBIDDEN"
  | .synchronized _ => some "DHARMA_SYNCHRONIZED"
  | .crash _ => none

/-- Full observable outcome of one handler run: the response, the vault left
behind, and which stages actually executed (purge side effect, classifier
HTTP call, signature computation). -/
structure HandshakeOutcome where
  result : HandlerResult
  vault : VaultState
  purgeCalled : Bool
  classifierCalled : Bool
  signatureComputed : Bool
  deriving DecidableEq

/-- `unified_handshake` from app.py, stage by stage:
1. `client_token = data.get('auth_token')`;
   `if not hmac.compare_digest(client_token or "", get_rotating_token())`
   (`x or ""` maps both `None` and `""` to `""`): a non-ASCII candidate
   makes `compare_digest` raise `TypeError` (uncaught, modelled as
   `crash`); an unequal ASCII candidate → 403 INTERCEPTED;
2. `if eeg_state == "STRESS_CRITICAL"` → `initiate_self_purge()` then
   410 TERMINATED;
3. `ethics_report = analyze_intent(mission_intent)`;
   `if "ADHARMA" in ethics_report.upper()` → 401 FORBIDDEN with the raw
   report in the `log` field;
4./5. success record with
   `astra_id = sha3_256(mission_intent.encode()).hexdigest()[:24].upper()` —
   when `mental_intent` is absent, `mission_intent` is `None` and
   `None.encode()` raises `AttributeError` (modelled as `crash`). -/
def unified_handshake (env : Env) (req : HandshakeRequest) (v : VaultState) :
    HandshakeOutcome :=
  let client_token := req.auth_token.getD ""
  match compare_digest client_token
      (get_rotating_token env.hmacSha3_512 env.nowSeconds) with
  | .error msg =>
    { result := .crash msg, vault := v, purgeCalled := false,
      classifierCalled := false, signatureComputed := false }
  | .ok tokenEqual =>
  if ¬ tokenEqual then
    { result := .intercepted, vault := v, purgeCalled := false,
      classifierCalled := false, signatureComputed := false }
  else if req.eeg_state = some "STRESS_CRITICAL" then
    { result := .terminated, vault := (initiate_self_purge v).1,
      purgeCalled := true, classifierCalled := false, signatureComputed := false }
  else
    let ethics_report := analyze_intent env.classifier
    if hasSubList "ADHARMA".data (pyUpper ethics_report).data then
      { result := .forbidden ethics_report, vault := v, purgeCalled := false,
        classifierCalled := true, signatureComputed := false }
    else
      match req.mental_intent with
      | none =>
        { result := .crash "AttributeError: NoneType object has no attribute encode",
          vault := v, purgeCalled := false, classifierCalled := true,
          signatureComputed := false }
      | some intent =>
        { result := .synchronized ("ASTRA-" ++ synthesize env.sha3_256_hexdigest intent),
          vault := v, purgeCalled := false, classifierCalled := true,
          signatureComputed := true }

/-- A concrete keyed-MAC stand-in for witnesses: depends on both key and
message. -/
def macConcat : String → String → String := fun k m => k ++ ":" ++ m

/-- A concrete MAC stand-in whose digest is the constant `"TOKEN"`. -/
def macConst : String → String → String := fun _ _ => "TOKEN"

/-- Every digest of `macConst` is ASCII (it is the constant `"TOKEN"`). -/
def macConst_ascii : ∀ key msg, isAsciiStr (macConst key msg) = true :=
  fun _ _ => rfl

/-- A concrete 64-character lowercase-hex digest stand-in for witnesses. -/
def sha64 : String → String :=
  fun _ => "0123456789abcdef0123456789abcdef0123456789abcdef0123456789abcdef"

/-- Witness environment: valid constant token, classifier call fails. -/
def env0 : Env :=
  { hmacSha3_512 := macConst, sha3_256_hexdigest := sha64,
    nowSeconds := 0, classifier := .failure, hmac_ascii := macConst_ascii }

/-- Witness environment: valid constant token, classifier replies with a
clearance text. -/
def envOk : Env :=
  { hmacSha3_512 := macConst, sha3_256_hexdigest := sha64,
    nowSeconds := 0, classifier := .success (some "DHARMIC_CLEARANCE"),
    hmac_ascii := macConst_ascii }

/-- Witness environment: valid constant token, classifier replies with a
lowercase rejection text. -/
def envReject : Env :=
  { hmacSha3_512 := macConst, sha3_256_hexdigest := sha64,
    nowSeconds := 0, classifier := .success (some "verdict: adharma_reject"),
    hmac_ascii := macConst_ascii }

/-- Witness request: valid token, critical distress signal. -/
def reqDistress : HandshakeRequest :=
  { auth_token := some "TOKEN", eeg_state := some "STRESS_CRITICAL",
    mental_intent := some "defend the border" }

/-- Witness request: valid token, normal state, intent present. -/
def reqNormal : HandshakeRequest :=
  { auth_token := some "TOKEN", eeg_state := some "NORMAL",
    mental_intent := some "defend the border" }

/-- Witness request: valid token, normal state, `mental_intent` absent. -/
def reqNoIntent : HandshakeRequest :=
  { auth_token := some "TOKEN", eeg_state := some "NORMAL",
    mental_intent := none }

/-- Witness request: wrong token. -/
def reqBadToken : HandshakeRequest :=
  { auth_token := some "WRONG", eeg_state := some "STRESS_CRITICAL",
    mental_intent := some "defend the border" }

/-- Counterexample request: a non-ASCII candidate token (a valid JSON
string), which differs from every hexdigest. -/
def reqNonAsciiToken : HandshakeRequest :=
  { auth_token := some "tökén", eeg_state := some "NORMAL",
    mental_intent := some "defend the border" }

/-- Witness request: `auth_token` absent. -/
def reqNoToken : HandshakeRequest :=
  { auth_token := none, eeg_state := some "NORMAL",
    mental_intent := some "defend the border" }

/-- Witness vault: existing, with two classified entries. -/
def vault0 : VaultState := { present := true, contents := ["plan.txt", "keys.bin"] }

/-- The lowercase hex alphabet. -/
def lowerHexChars : List Char := "0123456789abcdef".data

/-- The uppercase hex alphabet. -/
def upperHexChars : List Char := "0123456789ABCDEF".data

/-- The module-level bootstrap always leaves the vault directory present. -/
theorem ensureVault_present (v : VaultState) : (ensureVault v).present = true := by
  unfold ensureVault
  by_cases h : v.present
  · simp [h]
  · simp [h]

/-- Uppercasing a lowercase hex character yields an uppercase hex
character. -/
theorem toUpper_mem_upperHex :
    ∀ c ∈ lowerHexChars, Char.toUpper c ∈ upperHexChars := by decide

/-- The expected rotating code is ASCII: it is an output of the modelled
hexdigest primitive. -/
theorem rotating_token_ascii (env : Env) :
    isAsciiStr (get_rotating_token env.hmacSha3_512 env.nowSeconds) = true :=
  env.hmac_ascii HSM_MANTRA (toString (env.nowSeconds / 30))

/-- `compare_digest` succeeds with `true` when both arguments are the same
ASCII string. -/
theorem compare_digest_eq_self (s : String) (h : isAsciiStr s = true) :
    compare_digest s s = Except.ok true := by
  unfold compare_digest
  rw [h]
  simp

/-- `compare_digest` succeeds with `false` on two distinct ASCII
arguments. -/
theorem compare_digest_mismatch (a b : String) (ha : isAsciiStr a = true)
    (hb : isAsciiStr b = true) (hne : a ≠ b) :
    compare_digest a b = Except.ok false := by
  unfold compare_digest
  rw [ha, hb]
  simp [hne]

/-- The offline fallback report of `analyze_intent` does not contain the
`ADHARMA` marker. -/
theorem fallback_no_adharma :
    hasSubList "ADHARMA".data (pyUpper "DHARMIC_CLEARANCE_LOCAL_VERIFIED").data = false := by
  decide

/-- The default report used when the classifier body lacks a `response`
field does not contain the `ADHARMA` marker. -/
theorem default_no_adharma :
    hasSubList "ADHARMA".data (pyUpper "DHARMIC_CLEARANCE").data = false := by
  decide

/-- C1: with a matching token and `eeg_state = "STRESS_CRITICAL"` exactly,
the handler invokes the vault purge, the vault directory exists and is empty
right after the call regardless of its prior contents (the module bootstrap
guarantees the directory exists beforehand), and the response is the
terminal 410 `TERMINATED` record with no later stage executed. -/
theorem distress_critical_purges_and_terminates
    (env : Env) (req : HandshakeRequest) (v : VaultState)
    (htok : req.auth_token.getD "" = get_rotating_token env.hmacSha3_512 env.nowSeconds)
    (heeg : req.eeg_state = some "STRESS_CRITICAL")
    (hv : v.present = true) :
    (unified_handshake env req v).purgeCalled = true ∧
    (unified_handshake env req v).vault = { present := true, contents := [] } ∧
    (unified_handshake env req v).result = HandlerResult.terminated ∧
    (unified_handshake env req v).result.statusCode = some 410 ∧
    (unified_handshake env req v).result.statusTag = some "TERMINATED" ∧
    (unified_handshake env req v).classifierCalled = false ∧
    (unified_handshake env req v).signatureComputed = false := by
  have hcd : compare_digest (req.auth_token.getD "")
      (get_rotating_token env.hmacSha3_512 env.nowSeconds) = Except.ok true := by
    rw [htok]
    exact compare_digest_eq_self _ (rotating_token_ascii env)
  unfold unified_handshake
  simp [hcd, heeg, initiate_self_purge, hv, HandlerResult.statusCode,
    HandlerResult.statusTag]

/-- C1 witness: concrete run with the matching constant token, the critical
sentinel, and a non-empty vault. -/
theorem distress_critical_purges_and_terminates_witness :
    (unified_handshake env0 reqDistress vault0).purgeCalled = true ∧
    (unified_handshake env0 reqDistress vault0).vault = { present := true, contents := [] } ∧
    (unified_handshake env0 reqDistress vault0).result = HandlerResult.terminated ∧
    (unified_handshake env0 reqDistress vault0).result.statusCode = some 410 ∧
    (unified_handshake env0 reqDistress vault0).result.statusTag = some "TERMINATED" ∧
    (unified_handshake env0 reqDistress vault0).classifierCalled = false ∧
    (unified_handshake env0 reqDistress vault0).signatureComputed = false :=
  distress_critical_purges_and_terminates env0 reqDistress vault0
    (by decide) (by decide) (by decide)

/-- C2 counterexample: a syntactically valid request whose non-ASCII
candidate token differs from the expected rotating code does not get the
403 `INTERCEPTED` rejection: `hmac.compare_digest` at app.py:81 raises
`TypeError` on `str` arguments containing non-ASCII characters, an uncaught
exception (a 500 error page), so the claim's universal 403 fails. -/
theorem token_mismatch_not_always_403 :
    reqNonAsciiToken.auth_token.getD "" ≠
      get_rotating_token env0.hmacSha3_512 env0.nowSeconds ∧
    (unified_handshake env0 reqNonAsciiToken vault0).result =
      HandlerResult.crash
        "TypeError: comparing strings with non-ASCII characters is not supported" ∧
    (unified_handshake env0 reqNonAsciiToken vault0).result.statusCode ≠ some 403 ∧
    (unified_handshake env0 reqNonAsciiToken vault0).result ≠
      HandlerResult.intercepted := by
  decide

/-- C2 (amended): for every request whose candidate token (an absent
`auth_token` defaulting to the empty string) is an ASCII string that does
not equal the current expected rotating code, the handler returns the 403
`INTERCEPTED` rejection, makes no call to the external classifier, never
runs the purge and leaves the vault unmutated; a non-ASCII candidate
instead makes the comparison itself raise `TypeError`. -/
theorem ascii_token_mismatch_intercepted
    (env : Env) (req : HandshakeRequest) (v : VaultState)
    (hascii : isAsciiStr (req.auth_token.getD "") = true)
    (htok : req.auth_token.getD "" ≠ get_rotating_token env.hmacSha3_512 env.nowSeconds) :
    (unified_handshake env req v).result = HandlerResult.intercepted ∧
    (unified_handshake env req v).result.statusCode = some 403 ∧
    (unified_handshake env req v).result.statusTag = some "INTERCEPTED" ∧
    (unified_handshake env req v).vault = v ∧
    (unified_handshake env req v).purgeCalled = false ∧
    (unified_handshake env req v).classifierCalled = false := by
  have hcd : compare_digest (req.auth_token.getD "")
      (get_rotating_token env.hmacSha3_512 env.nowSeconds) = Except.ok false :=
    compare_digest_mismatch _ _ hascii (rotating_token_ascii env) htok
  unfold unified_handshake
  simp [hcd, HandlerResult.statusCode, HandlerResult.statusTag]

/-- C2 witness: concrete run with a wrong ASCII token (and a distress signal
that would purge if it were reached: it is not). -/
theorem ascii_token_mismatch_intercepted_witness :
    (unified_handshake env0 reqBadToken vault0).result = HandlerResult.intercepted ∧
    (unified_handshake env0 reqBadToken vault0).result.statusCode = some 403 ∧
    (unified_handshake env0 reqBadToken vault0).result.statusTag = some "INTERCEPTED" ∧
    (unified_handshake env0 reqBadToken vault0).vault = vault0 ∧
    (unified_handshake env0 reqBadToken vault0).purgeCalled = false ∧
    (unified_handshake env0 reqBadToken vault0).classifierCalled = false :=
  ascii_token_mismatch_intercepted env0 reqBadToken vault0 (by decide) (by decide)

/-- C7: the rotating code is a deterministic function of (secret, window)
only, where `window = floor(now_seconds / 30)`: two times in the same
30-second window yield equal codes, for any secret and any MAC primitive. -/
theorem rotating_code_same_window
    (mac : String → String → String) (secret : String) (t1 t2 : Nat)
    (h : t1 / 30 = t2 / 30) :
    rotating_token_with_secret mac secret t1 = rotating_token_with_secret mac secret t2 := by
  unfold rotating_token_with_secret
  rw [h]

/-- C7 witness: 31 s and 59 s lie in the same window, and the codes agree
for a MAC that genuinely depends on the window text. -/
theorem rotating_code_same_window_witness :
    (31 : Nat) / 30 = 59 / 30 ∧
    rotating_token_with_secret macConcat "S" 31 = rotating_token_with_secret macConcat "S" 59 :=
  ⟨by decide, rotating_code_same_window macConcat "S" 31 59 (by decide)⟩

/-- C10: when `auth_token` is absent (or null), `client_token or ""`
substitutes the empty string, the comparison evaluates without raising, and
— the expected rotating code being non-empty (a SHA3-512 hexdigest is 128
characters) — the request is rejected with the 403 response. -/
theorem absent_token_rejected
    (env : Env) (req : HandshakeRequest) (v : VaultState)
    (hnone : req.auth_token = none)
    (hne : get_rotating_token env.hmacSha3_512 env.nowSeconds ≠ "") :
    (unified_handshake env req v).result = HandlerResult.intercepted ∧
    (unified_handshake env req v).result.statusCode = some 403 ∧
    (unified_handshake env req v).vault = v ∧
    (unified_handshake env req v).purgeCalled = false ∧
    (unified_handshake env req v).classifierCalled = false := by
  have hascii : isAsciiStr (req.auth_token.getD "") = true := by
    rw [hnone]
    decide
  have htok : req.auth_token.getD "" ≠
      get_rotating_token env.hmacSha3_512 env.nowSeconds := by
    rw [hnone]
    exact fun h => hne h.symm
  have hcd : compare_digest (req.auth_token.getD "")
      (get_rotating_token env.hmacSha3_512 env.nowSeconds) = Except.ok false :=
    compare_digest_mismatch _ _ hascii (rotating_token_ascii env) htok
  unfold unified_handshake
  simp [hcd, HandlerResult.statusCode]

/-- C10 witness: concrete run with the token field absent and a non-empty
expected code. -/
theorem absent_token_rejected_witness :
    (unified_handshake env0 reqNoToken vault0).result = HandlerResult.intercepted ∧
    (unified_handshake env0 reqNoToken vault0).result.statusCode = some 403 ∧
    (unified_handshake env0 reqNoToken vault0).vault = vault0 ∧
    (unified_handshake env0 reqNoToken vault0).purgeCalled = false ∧
    (unified_handshake env0 reqNoToken vault0).classifierCalled = false :=
  absent_token_rejected env0 reqNoToken vault0 (by decide) (by decide)

/-- C5: whenever `eeg_state` is anything but the exact sentinel
`"STRESS_CRITICAL"` (lowercase variant, empty string, absent/null, …), the
vault is left exactly as it was and the purge never runs — so the vault is
mutated only by the distress branch — and, when the token check passes, the
pipeline proceeds to the classifier stage. -/
theorem noncritical_eeg_leaves_vault
    (env : Env) (req : HandshakeRequest) (v : VaultState)
    (heeg : req.eeg_state ≠ some "STRESS_CRITICAL") :
    (unified_handshake env req v).vault = v ∧
    (unified_handshake env req v).purgeCalled = false ∧
    (req.auth_token.getD "" = get_rotating_token env.hmacSha3_512 env.nowSeconds →
      (unified_handshake env req v).classifierCalled = true) := by
  cases hcd : compare_digest (req.auth_token.getD "")
      (get_rotating_token env.hmacSha3_512 env.nowSeconds) with
  | error msg =>
    refine ⟨?_, ?_, fun htok => ?_⟩
    · unfold unified_handshake; simp [hcd]
    · unfold unified_handshake; simp [hcd]
    · exfalso
      rw [htok, compare_digest_eq_self _ (rotating_token_ascii env)] at hcd
      simp at hcd
  | ok b =>
    cases b
    · refine ⟨?_, ?_, fun htok => ?_⟩
      · unfold unified_handshake; simp [hcd]
      · unfold unified_handshake; simp [hcd]
      · exfalso
        rw [htok, compare_digest_eq_self _ (rotating_token_ascii env)] at hcd
        simp at hcd
    · by_cases hrep : hasSubList "ADHARMA".data
          (pyUpper (analyze_intent env.classifier)).data
      · unfold unified_handshake; simp [hcd, heeg, hrep]
      · cases hmi : req.mental_intent <;>
          (unfold unified_handshake; simp [hcd, heeg, hrep, hmi])

/-- C5 witness: concrete run with a lowercase (non-sentinel) distress value
and a matching token: vault untouched, classifier reached. -/
theorem noncritical_eeg_leaves_vault_witness :
    (unified_handshake env0
        { auth_token := some "TOKEN", eeg_state := some "stress_critical",
          mental_intent := some "defend the border" } vault0).vault = vault0 ∧
    (unified_handshake env0
        { auth_token := some "TOKEN", eeg_state := some "stress_critical",
          mental_intent := some "defend the border" } vault0).purgeCalled = false ∧
    (unified_handshake env0
        { auth_token := some "TOKEN", eeg_state := some "stress_critical",
          mental_intent := some "defend the border" } vault0).classifierCalled = true :=
  have h := noncritical_eeg_leaves_vault env0
    { auth_token := some "TOKEN", eeg_state := some "stress_critical",
      mental_intent := some "defend the border" } vault0 (by decide)
  ⟨h.1, h.2.1, h.2.2 (by decide)⟩

/-- C6: if the classifier's reply contains the rejection marker `ADHARMA`
anywhere, case-insensitively (the code tests the marker as a substring of
the uppercased reply, not by equality), a request that passed the earlier
checks gets the 401 `FORBIDDEN` response carrying the raw reply in its
`log` field, and the signature stage is never reached. -/
theorem adharma_reply_forbidden
    (env : Env) (req : HandshakeRequest) (v : VaultState) (reply : String)
    (hc : env.classifier = ClassifierOutcome.success (some reply))
    (htok : req.auth_token.getD "" = get_rotating_token env.hmacSha3_512 env.nowSeconds)
    (heeg : req.eeg_state ≠ some "STRESS_CRITICAL")
    (hm : hasSubList "ADHARMA".data (pyUpper reply).data = true) :
    (unified_handshake env req v).result = HandlerResult.forbidden reply ∧
    (unified_handshake env req v).result.statusCode = some 401 ∧
    (unified_handshake env req v).result.statusTag = some "FORBIDDEN" ∧
    (unified_handshake env req v).signatureComputed = false := by
  have hcd : compare_digest (req.auth_token.getD "")
      (get_rotating_token env.hmacSha3_512 env.nowSeconds) = Except.ok true := by
    rw [htok]
    exact compare_digest_eq_self _ (rotating_token_ascii env)
  unfold unified_handshake
  simp [hcd, heeg, hc, analyze_intent, hm, HandlerResult.statusCode,
    HandlerResult.statusTag]

/-- C6 witness: a lowercase `adharma_reject` buried inside the reply still
triggers the 401 rejection with the raw reply logged. -/
theorem adharma_reply_forbidden_witness :
    (unified_handshake envReject reqNormal vault0).result =
      HandlerResult.forbidden "verdict: adharma_reject" ∧
    (unified_handshake envReject reqNormal vault0).result.statusCode = some 401 ∧
    (unified_handshake envReject reqNormal vault0).result.statusTag = some "FORBIDDEN" ∧
    (unified_handshake envReject reqNormal vault0).signatureComputed = false :=
  adharma_reply_forbidden envReject reqNormal vault0 "verdict: adharma_reject"
    (by decide) (by decide) (by decide) (by decide)

/-- C3 counterexample: a request that passes the token and distress checks
while the classifier call fails, but whose `mental_intent` field is absent:
the handler does not return the 200 success response — `mission_intent` is
`None`, so stage 5 raises `AttributeError` on `mission_intent.encode()`. -/
theorem classifier_failure_not_always_200 :
    env0.classifier = ClassifierOutcome.failure ∧
    reqNoIntent.auth_token.getD "" =
      get_rotating_token env0.hmacSha3_512 env0.nowSeconds ∧
    reqNoIntent.eeg_state ≠ some "STRESS_CRITICAL" ∧
    (unified_handshake env0 reqNoIntent vault0).result =
      HandlerResult.crash "AttributeError: NoneType object has no attribute encode" ∧
    (unified_handshake env0 reqNoIntent vault0).result.statusCode ≠ some 200 := by
  decide

/-- C3 (amended): for every request that passes the token and distress
checks and carries a `mental_intent` string, a classifier failure of any
kind falls back to the local clearance verdict and the pipeline still
returns the 200 `DHARMA_SYNCHRONIZED` success response; the infrastructure
failure is never surfaced to the caller. -/
theorem classifier_failure_fail_open
    (env : Env) (req : HandshakeRequest) (v : VaultState) (intent : String)
    (hc : env.classifier = ClassifierOutcome.failure)
    (htok : req.auth_token.getD "" = get_rotating_token env.hmacSha3_512 env.nowSeconds)
    (heeg : req.eeg_state ≠ some "STRESS_CRITICAL")
    (hmi : req.mental_intent = some intent) :
    (unified_handshake env req v).result =
      HandlerResult.synchronized ("ASTRA-" ++ synthesize env.sha3_256_hexdigest intent) ∧
    (unified_handshake env req v).result.statusCode = some 200 ∧
    (unified_handshake env req v).result.statusTag = some "DHARMA_SYNCHRONIZED" := by
  have hcd : compare_digest (req.auth_token.getD "")
      (get_rotating_token env.hmacSha3_512 env.nowSeconds) = Except.ok true := by
    rw [htok]
    exact compare_digest_eq_self _ (rotating_token_ascii env)
  unfold unified_handshake
  simp [hcd, heeg, hc, hmi, analyze_intent, HandlerResult.statusCode,
    HandlerResult.statusTag]
  split
  · next hcond => exact absurd hcond (by decide)
  · exact ⟨rfl, rfl, rfl⟩

/-- C3 witness: concrete run — valid token, normal EEG, intent present,
classifier call failing — still answers 200. -/
theorem classifier_failure_fail_open_witness :
    (unified_handshake env0 reqNormal vault0).result =
      HandlerResult.synchronized
        ("ASTRA-" ++ synthesize env0.sha3_256_hexdigest "defend the border") ∧
    (unified_handshake env0 reqNormal vault0).result.statusCode = some 200 ∧
    (unified_handshake env0 reqNormal vault0).result.statusTag =
      some "DHARMA_SYNCHRONIZED" :=
  classifier_failure_fail_open env0 reqNormal vault0 "defend the border"
    (by decide) (by decide) (by decide) (by decide)

/-- C4 (code-bug evidence): with a valid token, a normal EEG state, a
classifier clearance, and the `mental_intent` field absent, the handler
does not return a well-formed JSON response at all: `data.get('mental_intent')`
is `None` and `mission_intent.encode()` in the signature stage raises
`AttributeError` (an uncaught exception, a 500 error page instead of a
handler response). -/
theorem absent_intent_crashes :
    (unified_handshake envOk reqNoIntent vault0).result =
      HandlerResult.crash "AttributeError: NoneType object has no attribute encode" ∧
    (unified_handshake envOk reqNoIntent vault0).result.statusCode = none ∧
    (unified_handshake envOk reqNoIntent vault0).result.statusTag = none := by
  decide

/-- C8: `synthesize` (the astra-signature computation) applied to any
digest primitive that returns 64 lowercase-hex characters (as
`sha3_256(...).hexdigest()` does) is a pure function yielding exactly 24
uppercase hexadecimal characters — the first 24 code points of the
uppercased hexdigest — for every intent string, the empty string
included. -/
theorem synthesize_24_upper_hex
    (sha : String → String)
    (hsha : ∀ s, (sha s).data.length = 64 ∧ ∀ c ∈ (sha s).data, c ∈ lowerHexChars)
    (intent : String) :
    (synthesize sha intent).data.length = 24 ∧
    ∀ c ∈ (synthesize sha intent).data, c ∈ upperHexChars := by
  obtain ⟨hlen, hmem⟩ := hsha intent
  constructor
  · simp [synthesize, pyUpper, pySlice, hlen]
  · intro c hc
    simp only [synthesize, pyUpper, pySlice, List.mem_map] at hc
    obtain ⟨a, ha, rfl⟩ := hc
    exact toUpper_mem_upperHex a (hmem a (List.take_subset _ _ ha))

/-- The concrete digest stand-in `sha64` returns 64 lowercase-hex
characters on every input. -/
theorem sha64_hexdigest (s : String) :
    (sha64 s).data.length = 64 ∧ ∀ c ∈ (sha64 s).data, c ∈ lowerHexChars := by
  show ("0123456789abcdef0123456789abcdef0123456789abcdef0123456789abcdef" : String).data.length = 64 ∧
    ∀ c ∈ ("0123456789abcdef0123456789abcdef0123456789abcdef0123456789abcdef" : String).data,
      c ∈ lowerHexChars
  decide

/-- C8 witness: the 24-character uppercase-hex property at a concrete
digest primitive, for the empty intent string. -/
theorem synthesize_24_upper_hex_witness :
    (synthesize sha64 "").data.length = 24 ∧
    ∀ c ∈ (synthesize sha64 "").data, c ∈ upperHexChars :=
  synthesize_24_upper_hex sha64 sha64_hexdigest ""
